import Mathlib

/-!
Verification of the patrol detection and identity-matching pipeline of the
human_monitor_system repository, as a shallow embedding in Lean.

Conventions of the embedding:
* Times (Python datetime values) are integers (ticks); a timedelta is the
  difference of two ticks, and the cooldown window W is an integer number of
  ticks.  Comparisons of timedeltas in the source become integer comparisons.
* Guard identifiers are strings, as in the source.
* The process-lifetime dictionary self.last_recognition_time is an association
  list whose lookup returns the first (most recently assigned) binding, which
  models Python dictionary assignment and lookup.
* Database effects are explicit: the success of an INSERT (execute_update) is a
  boolean parameter, and the set of inserted rows is carried in the state.
* Exceptions are explicit: a function whose Python body can raise is embedded
  with an Except result; a function whose Python body catches all exceptions is
  embedded as a total function returning the fallback value of its handler.
-/

/-- Guard identifier (the guard_id column). -/
def GuardId := String

instance : DecidableEq GuardId := fun a b => String.decEq a b

/-- State of FaceMonitor that the recording path touches: the per-guard map
self.last_recognition_time, and the rows inserted into patrol_records by
_record_patrol (pairs of guard_id and arrival_time). -/
structure MonitorState where
  last_recognition_time : List (GuardId × ℤ)
  patrol_records : List (GuardId × ℤ)
deriving DecidableEq

/-- The empty state a fresh FaceMonitor starts from. -/
def initialMonitorState : MonitorState := ⟨[], []⟩

/-- Python dictionary lookup on an association list: the first binding wins
(bindings are prepended on assignment, so the first one is the newest). -/
def dictFind (m : List (GuardId × ℤ)) (g : GuardId) : Option ℤ :=
  match m with
  | [] => none
  | (k, v) :: rest => if k = g then some v else dictFind rest g

/-- FaceMonitor._can_record_patrol: returns False when the guard has a stored
last recognition time and now - last_time < cooldown, else True. -/
def canRecordPatrol (cooldown : ℤ) (last : List (GuardId × ℤ)) (g : GuardId)
    (now : ℤ) : Bool :=
  match dictFind last g with
  | none => true
  | some last_time => if now - last_time < cooldown then false else true

/-- FaceMonitor._record_patrol.  The body runs under a try/except that catches
every exception and only logs it, so the embedding is a total function.  In
order: unknown guard ids are rejected, then the cooldown check runs, then the
INSERT into patrol_records is attempted (insert_ok says whether execute_update
succeeds; on failure the exception is caught before the map update, so neither
a row nor the last_recognition_time entry is produced), and only after a
successful insert is last_recognition_time[guard_id] set to now.  The boolean
result reports whether an arrival row was inserted. -/
def recordPatrol (roster : List GuardId) (cooldown : ℤ) (st : MonitorState)
    (g : GuardId) (now : ℤ) (insert_ok : Bool) : MonitorState × Bool :=
  if g ∈ roster then
    if canRecordPatrol cooldown st.last_recognition_time g now then
      if insert_ok then
        ({ last_recognition_time := (g, now) :: st.last_recognition_time,
           patrol_records := st.patrol_records ++ [(g, now)] }, true)
      else (st, false)
    else (st, false)
  else (st, false)

/-- A whole run of the FaceMonitor recording step: each call carries the guard
seen, the wall-clock instant of the call, and whether the INSERT succeeds. -/
def runPatrolCalls (roster : List GuardId) (cooldown : ℤ) (st : MonitorState)
    (calls : List (GuardId × ℤ × Bool)) : MonitorState :=
  calls.foldl (fun s c => (recordPatrol roster cooldown s c.1 c.2.1 c.2.2).1) st

/-- The deduplication property of a record list: any two rows for the same
guard, in emission order, are at least the cooldown window apart. -/
def cooldownSpaced (cooldown : ℤ) (records : List (GuardId × ℤ)) : Prop :=
  records.Pairwise (fun a b => a.1 = b.1 → a.2 + cooldown ≤ b.2)

/-- Invariant tying the last_recognition_time map to the emitted rows:
the rows are cooldown-spaced, every stored last time bounds every emitted row
of that guard from above, and a guard absent from the map has no rows. -/
def MonitorInv (cooldown : ℤ) (st : MonitorState) : Prop :=
  cooldownSpaced cooldown st.patrol_records ∧
  (∀ g t, dictFind st.last_recognition_time g = some t →
    ∀ p ∈ st.patrol_records, p.1 = g → p.2 ≤ t) ∧
  (∀ g, dictFind st.last_recognition_time g = none →
    ∀ p ∈ st.patrol_records, p.1 ≠ g)

/-- Squared Euclidean distance between two embedding vectors.  The source
(face_recognition.face_distance, np.linalg.norm) computes the Euclidean
distance itself; every comparison of it against a nonnegative bound b is
encoded here as a comparison of the square against b squared, which is
equivalent and keeps the definition executable. -/
def faceDistanceSq (a b : List ℚ) : ℚ :=
  (List.zipWith (fun x y => (x - y) * (x - y)) a b).sum

/-- face_recognition.compare_faces, as used by FaceMonitor._recognize_face: one
boolean per known encoding, true when the distance to the probe is within the
tolerance (encoded on squares: tolSq is the squared tolerance). -/
def fr_compare_faces (known : List (List ℚ)) (probe : List ℚ) (tolSq : ℚ) :
    List Bool :=
  known.map (fun e => decide (faceDistanceSq e probe ≤ tolSq))

/-- Python list.index(True): index of the first true entry (the source guards
the call with the check that True is in the list). -/
def indexOfTrue : List Bool → ℕ
  | [] => 0
  | b :: rest => if b then 0 else indexOfTrue rest + 1

/-- The matching step of FaceMonitor._recognize_face for one probe encoding:
compare_faces against all known encodings, and when some comparison is true,
take the guard at the index of the FIRST true (matches.index(True)); the
roster list pairs each guard_id with its encoding, in the load order that
known_face_encodings and known_guard_info share. -/
def recognizeMatch (roster : List (GuardId × List ℚ)) (probe : List ℚ)
    (tolSq : ℚ) : Option GuardId :=
  let matchList := fr_compare_faces (roster.map Prod.snd) probe tolSq
  if true ∈ matchList then (roster.get? (indexOfTrue matchList)).map Prod.fst
  else none

/-- FACE_RECOGNITION_CONFIG of app/config/settings.py (the numeric fields). -/
structure FaceRecognitionConfig where
  min_face_size : ℕ
  min_confidence : ℚ
  embedding_size : ℕ
  max_face_distance : ℚ

def FACE_RECOGNITION_CONFIG : FaceRecognitionConfig :=
  { min_face_size := 64
    min_confidence := 8/10
    embedding_size := 512
    max_face_distance := 6/10 }

/-- FaceRecognizer.compare_faces (face_recognition.py): the similarity score is
one minus the face distance. -/
def faceSimilarity (distance : ℚ) : ℚ := 1 - distance

/-- PatrolPoint rows (patrol_point_manager.py dataclass). -/
structure PatrolPoint where
  point_id : ℕ
  camera_id : String
  name : String
  coord_x : ℤ
  coord_y : ℤ
  radius : ℤ
  description : String
deriving DecidableEq

/-- PatrolDetector._is_in_patrol_point: the source compares
sqrt((x - coord_x)^2 + (y - coord_y)^2) <= radius; encoded on squares
(equivalent for nonnegative radius, made precise by the membership theorem
below against Real.sqrt). -/
def is_in_patrol_point (position : ℤ × ℤ) (point : PatrolPoint) : Bool :=
  decide ((position.1 - point.coord_x) ^ 2 + (position.2 - point.coord_y) ^ 2
    ≤ point.radius ^ 2)

/-- The geofence evaluation inside PatrolDetector.detect_frame: the patrol
points whose circle contains the position. -/
def zonesContaining (points : List PatrolPoint) (position : ℤ × ℤ) :
    List PatrolPoint :=
  points.filter (fun p => is_in_patrol_point position p)

/-- Bounding region of a detected face, in frame pixel coordinates, in the
(top, right, bottom, left) order used by face_recognition.face_locations. -/
structure FaceLocation where
  top : ℕ
  right : ℕ
  bottom : ℕ
  left : ℕ
deriving DecidableEq

/-- Shape (height, width) of the cropped face image
image[top:bottom, left:right] built by FaceRecognizer.detect_faces. -/
def face_image_shape (loc : FaceLocation) : ℕ × ℕ :=
  (loc.bottom - loc.top, loc.right - loc.left)

/-- PatrolDetector._get_face_center: given the face image, returns
(width // 2, height // 2) of that image.  The argument is the cropped face
image produced by detect_faces, represented by its shape. -/
def get_face_center (face_shape : ℕ × ℕ) : ℕ × ℕ :=
  (face_shape.2 / 2, face_shape.1 / 2)

/-- The 2-D point that detect_frame submits to the geofence test for a face
found at the given bounding region: _get_face_center applied to the cropped
face image of that region. -/
def detectFramePoint (loc : FaceLocation) : ℕ × ℕ :=
  get_face_center (face_image_shape loc)

/-- Follows the words of the spec, for comparison: the centroid of the
bounding region expressed in the original frame's pixel coordinates
(midpoint of the region). -/
def specFrameCentroid (loc : FaceLocation) : ℕ × ℕ :=
  ((loc.left + loc.right) / 2, (loc.top + loc.bottom) / 2)

/-- FaceRecognizer.detect_faces: the whole body runs under a try/except whose
handler logs and returns the empty list, so a model error (modelled as an
Except.error outcome of the wrapped face_recognition calls) yields zero faces;
on success every located face is cropped and kept only when both sides of the
crop reach min_face_size. -/
def fr_detect_faces
    (model_result : Except String (List (FaceLocation × List ℚ)))
    (min_face_size : ℕ) : List (FaceLocation × List ℚ) :=
  match model_result with
  | Except.error _ => []
  | Except.ok faces =>
      faces.filter (fun f =>
        !(decide ((face_image_shape f.1).1 < min_face_size)) &&
        !(decide ((face_image_shape f.1).2 < min_face_size)))

/-- One frame of the video-file monitor body (steps 6.3 and 6.4 of
start_video_file_monitor): every matched guard is passed to _record_patrol.
frame_count is the position of the frame in the source; the source uses it
only for the progress log and the on-screen progress bar, while the arrival
time written by _record_patrol is datetime.now(), the now argument here. -/
def videoFrameStep (roster : List GuardId) (cooldown : ℤ) (frame_count : ℕ)
    (now : ℤ) (matched : List GuardId) (st : MonitorState) : MonitorState :=
  matched.foldl (fun s g => (recordPatrol roster cooldown s g now true).1) st

/-- The frame loop of start_video_file_monitor over a finite prefix of the
video (headless path, no pause or seek input).  Each frame carries the
wall-clock instant at which it is processed and the outcome of
_recognize_face: Except.error models an exception from the face model, which
_recognize_face does not catch and the loop's outer except re-raises after
logging, so it ends the run. -/
def monitorLoop (roster : List GuardId) (cooldown : ℤ) (frame_count : ℕ)
    (st : MonitorState) :
    List (ℤ × Except String (List GuardId)) → Except String MonitorState
  | [] => Except.ok st
  | (_, Except.error e) :: _ => Except.error e
  | (now, Except.ok matched) :: rest =>
      monitorLoop roster cooldown (frame_count + 1)
        (videoFrameStep roster cooldown (frame_count + 1) now matched st) rest

/-- Loop state of start_video_file_monitor that the seek keys touch, next to
the capture position: the frame counter, the next progress-log frame, and the
recording state (which the seek handlers never touch). -/
structure VideoLoopState where
  frame_count : ℤ
  next_log_frame : ℤ
  monitor : MonitorState
deriving DecidableEq

/-- Target frame of the left-arrow branch: max(0, current_frame - fps * 5). -/
def seek_backward_target (current : ℤ) (fps : ℤ) : ℤ :=
  max 0 (current - fps * 5)

/-- Target frame of the right-arrow branch:
min(total_frames - 1, current_frame + fps * 5). -/
def seek_forward_target (total_frames current fps : ℤ) : ℤ :=
  min (total_frames - 1) (current + fps * 5)

/-- The left-arrow key branch: computes the clamped target, repositions the
capture there, and resets frame_count and next_log_frame; the monitor state is
left as it was. -/
def handle_seek_backward (fps log_interval current : ℤ)
    (ls : VideoLoopState) : ℤ × VideoLoopState :=
  let target := seek_backward_target current fps
  (target,
   { frame_count := target
     next_log_frame := target + (log_interval - target % log_interval)
     monitor := ls.monitor })

/-- The right-arrow key branch, with the same shape as the backward one. -/
def handle_seek_forward (total_frames fps log_interval current : ℤ)
    (ls : VideoLoopState) : ℤ × VideoLoopState :=
  let target := seek_forward_target total_frames current fps
  (target,
   { frame_count := target
     next_log_frame := target + (log_interval - target % log_interval)
     monitor := ls.monitor })

/-- The recording part of PatrolDetector.detect_frame: for every face, when
the guard is identified, every patrol point containing the face center gets a
patrol record through PatrolPointManager.add_patrol_record, whose INSERT uses
NOW() as the arrival time and consults no cooldown state.  A face is given by
the outcome of _identify_guard and the center _get_face_center returned for
it; a record row is (guard_id, point_id, arrival_time). -/
def detect_frame_records (points : List PatrolPoint)
    (faces : List (Option GuardId × (ℤ × ℤ))) (now : ℤ)
    (records : List (GuardId × ℕ × ℤ)) : List (GuardId × ℕ × ℤ) :=
  faces.foldl (fun recs f =>
    match f.1 with
    | none => recs
    | some g =>
        (zonesContaining points f.2).foldl
          (fun r p => r ++ [(g, p.point_id, now)]) recs) records

theorem dictFind_cons_self (g : GuardId) (t : ℤ) (m : List (GuardId × ℤ)) :
    dictFind ((g, t) :: m) g = some t := by
  simp [dictFind]

theorem dictFind_cons_ne (g h : GuardId) (t : ℤ) (m : List (GuardId × ℤ))
    (hne : g ≠ h) : dictFind ((g, t) :: m) h = dictFind m h := by
  simp [dictFind, hne]

theorem recordPatrol_fst_cases (roster : List GuardId) (cooldown : ℤ)
    (st : MonitorState) (g : GuardId) (now : ℤ) (insert_ok : Bool) :
    (recordPatrol roster cooldown st g now insert_ok).1 = st ∨
    (g ∈ roster ∧ canRecordPatrol cooldown st.last_recognition_time g now = true ∧
     insert_ok = true ∧
     (recordPatrol roster cooldown st g now insert_ok).1 =
       { last_recognition_time := (g, now) :: st.last_recognition_time,
         patrol_records := st.patrol_records ++ [(g, now)] }) := by
  unfold recordPatrol
  split_ifs with h1 h2 h3
  · exact Or.inr ⟨h1, h2, h3, rfl⟩
  · exact Or.inl rfl
  · exact Or.inl rfl
  · exact Or.inl rfl

theorem recordPatrol_preserves_inv (roster : List GuardId) (cooldown : ℤ)
    (st : MonitorState) (g : GuardId) (now : ℤ) (insert_ok : Bool)
    (hW : 0 ≤ cooldown) (hinv : MonitorInv cooldown st) :
    MonitorInv cooldown (recordPatrol roster cooldown st g now insert_ok).1 := by
  obtain ⟨hspace, hupper, hnone⟩ := hinv
  rcases recordPatrol_fst_cases roster cooldown st g now insert_ok with heq | ⟨hg, hcan, hok, heq⟩
  · rw [heq]
    exact ⟨hspace, hupper, hnone⟩
  · rw [heq]
    -- every already emitted row of guard g is at least cooldown before now
    have hgap : ∀ p ∈ st.patrol_records, p.1 = g → p.2 + cooldown ≤ now := by
      intro p hp hpg
      cases hfind : dictFind st.last_recognition_time g with
      | none => exact absurd hpg (hnone g hfind p hp)
      | some t =>
        have hcool : ¬ now - t < cooldown := by
          unfold canRecordPatrol at hcan
          rw [hfind] at hcan
          by_contra hlt
          simp [hlt] at hcan
        have hpt : p.2 ≤ t := hupper g t hfind p hp hpg
        omega
    refine ⟨?_, ?_, ?_⟩
    · unfold cooldownSpaced at hspace ⊢
      rw [List.pairwise_append]
      refine ⟨hspace, List.pairwise_singleton _ _, ?_⟩
      intro a ha b hb hab
      simp only [List.mem_singleton] at hb
      subst hb
      exact hgap a ha hab
    · intro h t hfind p hp hpg
      by_cases hgh : g = h
      · subst hgh
        rw [dictFind_cons_self] at hfind
        injection hfind with hfind
        subst hfind
        rcases List.mem_append.mp hp with hp | hp
        · have := hgap p hp hpg
          omega
        · simp only [List.mem_singleton] at hp
          subst hp
          exact le_refl _
      · rw [dictFind_cons_ne g h now _ hgh] at hfind
        rcases List.mem_append.mp hp with hp | hp
        · exact hupper h t hfind p hp hpg
        · simp only [List.mem_singleton] at hp
          subst hp
          exact absurd hpg hgh
    · intro h hfind p hp
      by_cases hgh : g = h
      · subst hgh
        rw [dictFind_cons_self] at hfind
        exact absurd hfind (by simp)
      · rw [dictFind_cons_ne g h now _ hgh] at hfind
        rcases List.mem_append.mp hp with hp | hp
        · exact hnone h hfind p hp
        · simp only [List.mem_singleton] at hp
          subst hp
          exact fun hc => hgh hc

theorem runPatrolCalls_preserves_inv (roster : List GuardId) (cooldown : ℤ)
    (calls : List (GuardId × ℤ × Bool)) (st : MonitorState)
    (hW : 0 ≤ cooldown) (hinv : MonitorInv cooldown st) :
    MonitorInv cooldown (runPatrolCalls roster cooldown st calls) := by
  induction calls generalizing st with
  | nil => exact hinv
  | cons c rest ih =>
    exact ih _ (recordPatrol_preserves_inv roster cooldown st c.1 c.2.1 c.2.2 hW hinv)

theorem initial_monitor_inv (cooldown : ℤ) : MonitorInv cooldown initialMonitorState := by
  refine ⟨List.Pairwise.nil, ?_, ?_⟩ <;> intro _ <;> simp [initialMonitorState]

theorem recordPatrol_records_cases (roster : List GuardId) (cooldown : ℤ)
    (st : MonitorState) (g : GuardId) (now : ℤ) (insert_ok : Bool) :
    ∀ e ∈ (recordPatrol roster cooldown st g now insert_ok).1.patrol_records,
      e ∈ st.patrol_records ∨ e.2 = now := by
  rcases recordPatrol_fst_cases roster cooldown st g now insert_ok with
    heq | ⟨_, _, _, heq⟩ <;> rw [heq]
  · exact fun e he => Or.inl he
  · intro e he
    rcases List.mem_append.mp he with h | h
    · exact Or.inl h
    · simp only [List.mem_singleton] at h
      subst h
      exact Or.inr rfl

theorem videoFrameStep_records (roster : List GuardId) (cooldown : ℤ)
    (fc : ℕ) (now : ℤ) (matched : List GuardId) :
    ∀ st : MonitorState,
      ∀ e ∈ (videoFrameStep roster cooldown fc now matched st).patrol_records,
        e ∈ st.patrol_records ∨ e.2 = now := by
  induction matched with
  | nil => exact fun st e he => Or.inl he
  | cons g rest ih =>
    intro st e he
    have hstep : videoFrameStep roster cooldown fc now (g :: rest) st =
        videoFrameStep roster cooldown fc now rest
          ((recordPatrol roster cooldown st g now true).1) := rfl
    rw [hstep] at he
    rcases ih ((recordPatrol roster cooldown st g now true).1) e he with h | h
    · exact recordPatrol_records_cases roster cooldown st g now true e h
    · exact Or.inr h

/-- C2: with cooldown window W, two record calls for the same guard at times t
and t + W - 1 yield recorded then suppressed, while calls at t and t + W yield
recorded then recorded: the cooldown check suppresses strictly inside the
window and accepts exactly at the window boundary. -/
theorem cooldown_boundary_behavior (g : GuardId) (t W : ℤ) :
    (recordPatrol [g] W initialMonitorState g t true).2 = true ∧
    (recordPatrol [g] W (recordPatrol [g] W initialMonitorState g t true).1 g
      (t + W - 1) true).2 = false ∧
    (recordPatrol [g] W (recordPatrol [g] W initialMonitorState g t true).1 g
      (t + W) true).2 = true := by
  have h1 : recordPatrol [g] W initialMonitorState g t true =
      ({ last_recognition_time := [(g, t)], patrol_records := [(g, t)] }, true) := by
    simp [recordPatrol, canRecordPatrol, dictFind, initialMonitorState]
  refine ⟨by rw [h1], ?_, ?_⟩
  · rw [h1]
    have hlt : t + W - 1 - t < W := by omega
    simp [recordPatrol, canRecordPatrol, dictFind, hlt]
  · rw [h1]
    have hge : ¬ (t + W - t < W) := by omega
    simp [recordPatrol, canRecordPatrol, dictFind, hge]

/-- C10: the recording operation is atomic on persistence failure: when the
INSERT into patrol_records raises, _record_patrol leaves the
last_recognition_time map and the emitted rows unchanged and returns normally
(the exception is caught), and a later sighting of the guard that still passes
the cooldown check is recorded once the insert succeeds. -/
theorem record_patrol_insert_failure_atomic (roster : List GuardId)
    (cooldown : ℤ) (st : MonitorState) (g : GuardId) (now : ℤ) :
    recordPatrol roster cooldown st g now false = (st, false) ∧
    (g ∈ roster → canRecordPatrol cooldown st.last_recognition_time g now = true →
      (recordPatrol roster cooldown st g now true).2 = true) := by
  constructor
  · unfold recordPatrol
    split_ifs with h1 h2 h3
    · exact h3.elim
    · rfl
    · rfl
    · rfl
  · intro hg hcan
    unfold recordPatrol
    rw [if_pos hg, if_pos hcan, if_pos rfl]

/-- C10 witness: concrete run of record_patrol_insert_failure_atomic on the
fresh state with guard G1 at time 0. -/
theorem record_patrol_insert_failure_atomic_spot :
    recordPatrol ["G1"] 300 initialMonitorState "G1" 0 false =
      (initialMonitorState, false) ∧
    (recordPatrol ["G1"] 300 initialMonitorState "G1" 0 true).2 = true :=
  ⟨(record_patrol_insert_failure_atomic ["G1"] 300 initialMonitorState "G1" 0).1,
   (record_patrol_insert_failure_atomic ["G1"] 300 initialMonitorState "G1" 0).2
     (by decide) (by decide)⟩

/-- C3 (amended part): in every run of the FaceMonitor recording step from the
fresh state, any two arrival rows emitted for the same guard are at least the
cooldown window apart, whatever the sequence of calls and insert outcomes. -/
theorem faceMonitor_cooldown_window_invariant (roster : List GuardId) (W : ℤ)
    (calls : List (GuardId × ℤ × Bool)) (hW : 0 ≤ W) :
    cooldownSpaced W
      (runPatrolCalls roster W initialMonitorState calls).patrol_records :=
  (runPatrolCalls_preserves_inv roster W calls initialMonitorState hW
    (initial_monitor_inv W)).1

/-- C3 witness: the invariant instantiated on a concrete three-call run. -/
theorem faceMonitor_cooldown_window_invariant_witness :
    cooldownSpaced 300 (runPatrolCalls ["G1"] 300 initialMonitorState
      [("G1", 0, true), ("G1", 100, true), ("G1", 400, true)]).patrol_records :=
  faceMonitor_cooldown_window_invariant ["G1"] 300
    [("G1", 0, true), ("G1", 100, true), ("G1", 400, true)] (by norm_num)

/-- C3 counterexample: the PatrolDetector.detect_frame recording path consults
no cooldown state, so the same guard in the same zone on two frames one tick
apart yields two arrival records far closer together than a 300-tick window,
refuting the claim for that pipeline. -/
theorem detect_frame_records_no_cooldown_cx :
    detect_frame_records [⟨1, "CAM_1F_GATE", "gate", 0, 0, 5, ""⟩]
      [(some "G1", (0, 0))] 0 [] = [("G1", 1, 0)] ∧
    detect_frame_records [⟨1, "CAM_1F_GATE", "gate", 0, 0, 5, ""⟩]
      [(some "G1", (0, 0))] 1 [("G1", 1, 0)] =
      [("G1", 1, 0), ("G1", 1, 1)] ∧
    (1 : ℤ) - 0 < 300 := by
  refine ⟨rfl, rfl, by norm_num⟩

/-- C6 counterexample: the same matched guard on the same source frame
(position 10) processed at two different wall-clock instants is recorded with
two different timestamps, so the timestamp attached to an arrival record is
the wall-clock processing time, not a function of the frame's position in the
source. -/
theorem arrival_timestamp_wall_clock_cx :
    (videoFrameStep ["G1"] 300 10 100 ["G1"] initialMonitorState).patrol_records
      = [("G1", 100)] ∧
    (videoFrameStep ["G1"] 300 10 200 ["G1"] initialMonitorState).patrol_records
      = [("G1", 200)] ∧
    (100 : ℤ) ≠ 200 := by
  refine ⟨rfl, rfl, by norm_num⟩

/-- C6 (amended): the frame's position in the source has no effect on the
recording step, and every arrival row it emits carries the wall-clock instant
now at which the frame was processed. -/
theorem arrival_timestamp_is_wall_clock (roster : List GuardId) (W : ℤ)
    (fc fc' : ℕ) (now : ℤ) (matched : List GuardId) (st : MonitorState) :
    videoFrameStep roster W fc now matched st =
      videoFrameStep roster W fc' now matched st ∧
    ∀ e ∈ (videoFrameStep roster W fc now matched st).patrol_records,
      e ∈ st.patrol_records ∨ e.2 = now :=
  ⟨rfl, videoFrameStep_records roster W fc now matched st⟩

/-- C7 counterexample: a run whose first frame makes the face model raise ends
with that error, so the second frame is never processed; the same run with the
error replaced by zero faces continues and records the guard on the second
frame.  The FaceMonitor loop therefore aborts on a detection error instead of
treating it as an empty frame. -/
theorem detection_error_aborts_monitor_cx :
    monitorLoop ["G1"] 300 0 initialMonitorState
      [(0, Except.error "model failure"), (1, Except.ok ["G1"])] =
      Except.error "model failure" ∧
    monitorLoop ["G1"] 300 0 initialMonitorState
      [(0, Except.ok []), (1, Except.ok ["G1"])] =
      Except.ok ⟨[("G1", 1)], [("G1", 1)]⟩ :=
  ⟨rfl, rfl⟩

/-- C7 (amended): FaceRecognizer.detect_faces converts a model error into the
empty face list (zero faces this frame), but in FaceMonitor's video loop a
model error inside _recognize_face propagates: the loop's outer handler logs
and re-raises, so the run ends with that error whatever frames remain. -/
theorem detection_error_handling :
    (∀ (e : String) (m : ℕ), fr_detect_faces (Except.error e) m = []) ∧
    (∀ (roster : List GuardId) (W : ℤ) (fc : ℕ) (st : MonitorState) (now : ℤ)
        (e : String) (rest : List (ℤ × Except String (List GuardId))),
      monitorLoop roster W fc st ((now, Except.error e) :: rest) =
        Except.error e) :=
  ⟨fun _ _ => rfl, fun _ _ _ _ _ _ _ => rfl⟩

/-- C1: FaceMonitor._recognize_face takes the FIRST within-tolerance roster
entry in iteration order, not the nearest one: with roster order G_far (squared
distance 1/4) before G_near (squared distance 1/100) and squared tolerance
36/100, both entries are within tolerance, G_near is strictly nearer, and the
match returned is G_far. -/
theorem recognize_face_first_match_not_nearest :
    recognizeMatch [("G_far", [1/2]), ("G_near", [1/10])] [0] (36/100) =
      some "G_far" ∧
    faceDistanceSq [1/10] [0] < faceDistanceSq [1/2] [0] ∧
    faceDistanceSq [1/2] [0] ≤ 36/100 ∧
    faceDistanceSq [1/10] [0] ≤ 36/100 := by
  refine ⟨?_, by norm_num [faceDistanceSq], by norm_num [faceDistanceSq],
    by norm_num [faceDistanceSq]⟩
  have hm : fr_compare_faces
      (List.map Prod.snd ([("G_far", [(1:ℚ)/2]), ("G_near", [(1:ℚ)/10])] :
        List (GuardId × List ℚ)))
      [0] (36/100) = [true, true] := by
    norm_num [fr_compare_faces, faceDistanceSq]
  simp only [recognizeMatch]
  rw [hm]
  rfl

/-- C9 counterexample: in FACE_RECOGNITION_CONFIG, min_confidence (0.8) is not
one minus max_face_distance (which would be 0.4), and at distance 1/2 the
confidence 1 - 1/2 fails the minimum confidence although the distance is below
the maximum distance, so the two threshold forms disagree. -/
theorem threshold_forms_inconsistent_cx :
    FACE_RECOGNITION_CONFIG.min_confidence ≠
      1 - FACE_RECOGNITION_CONFIG.max_face_distance ∧
    ¬ ((FACE_RECOGNITION_CONFIG.min_confidence ≤ faceSimilarity (1/2)) ↔
       ((1 : ℚ)/2 < FACE_RECOGNITION_CONFIG.max_face_distance)) := by
  constructor
  · norm_num [FACE_RECOGNITION_CONFIG]
  · norm_num [FACE_RECOGNITION_CONFIG, faceSimilarity]

/-- C9 (amended): acceptance is governed by min_confidence alone: a confidence
1 - d meets min_confidence exactly when d is at most 1 - min_confidence
(= 0.2), and that bound differs from the configured max_face_distance (0.6),
so the two configured threshold forms are not numerically consistent. -/
theorem min_confidence_governs_acceptance :
    (∀ d : ℚ, FACE_RECOGNITION_CONFIG.min_confidence ≤ faceSimilarity d ↔
      d ≤ 1 - FACE_RECOGNITION_CONFIG.min_confidence) ∧
    1 - FACE_RECOGNITION_CONFIG.min_confidence ≠
      FACE_RECOGNITION_CONFIG.max_face_distance := by
  constructor
  · intro d
    simp only [FACE_RECOGNITION_CONFIG, faceSimilarity]
    constructor <;> intro h <;> linarith
  · norm_num [FACE_RECOGNITION_CONFIG]

/-- C4: for every point and zone with nonnegative radius, the geofence
membership test returns true exactly when the Euclidean distance from the
point to the zone center is at most the zone radius (boundary inclusive; any
point strictly farther than the radius is excluded by the iff). -/
theorem patrol_point_membership_iff_distance_le_radius (position : ℤ × ℤ)
    (point : PatrolPoint) (h : 0 ≤ point.radius) :
    is_in_patrol_point position point = true ↔
    Real.sqrt (((position.1 - point.coord_x) ^ 2 +
        (position.2 - point.coord_y) ^ 2 : ℤ) : ℝ) ≤ (point.radius : ℝ) := by
  simp only [is_in_patrol_point, decide_eq_true_eq]
  rw [Real.sqrt_le_left (by exact_mod_cast h)]
  constructor <;> intro hle <;> exact_mod_cast hle

/-- C4 witness: a zone of radius 5 at the origin contains the boundary point
(3, 4), whose distance is exactly 5. -/
theorem patrol_point_membership_witness :
    is_in_patrol_point (3, 4) ⟨1, "CAM_1F_GATE", "gate", 0, 0, 5, ""⟩ = true ↔
    Real.sqrt ((((3 : ℤ) - 0) ^ 2 + ((4 : ℤ) - 0) ^ 2 : ℤ) : ℝ) ≤
      ((5 : ℤ) : ℝ) :=
  patrol_point_membership_iff_distance_le_radius (3, 4)
    ⟨1, "CAM_1F_GATE", "gate", 0, 0, 5, ""⟩ (by norm_num)

/-- C5: the point detect_frame submits to the geofence test is the center of
the CROPPED face image, in crop-local coordinates: for a face whose bounding
region is top 100, right 260, bottom 150, left 200 the submitted point is
(30, 25), while the centroid of that region in frame pixel coordinates is
(230, 125). -/
theorem face_center_is_crop_local :
    detectFramePoint ⟨100, 260, 150, 200⟩ = (30, 25) ∧
    specFrameCentroid ⟨100, 260, 150, 200⟩ = (230, 125) ∧
    detectFramePoint ⟨100, 260, 150, 200⟩ ≠
      specFrameCentroid ⟨100, 260, 150, 200⟩ := by
  refine ⟨rfl, rfl, by decide⟩

/-- C8: both seek branches clamp the target to the source bounds: from any
in-bounds position the backward target and forward target stay within
[0, total_frames - 1], a backward seek from frame 0 stays at frame 0, a
forward seek reaching past the last frame lands exactly on the last frame,
and neither branch touches the recording state. -/
theorem seek_clamps (total fps log_interval current : ℤ) (ls : VideoLoopState)
    (hfps : 0 ≤ fps) (htotal : 1 ≤ total) (hcur0 : 0 ≤ current)
    (hcur1 : current ≤ total - 1) :
    (0 ≤ (handle_seek_backward fps log_interval current ls).1 ∧
     (handle_seek_backward fps log_interval current ls).1 ≤ total - 1 ∧
     (handle_seek_backward fps log_interval 0 ls).1 = 0) ∧
    (0 ≤ (handle_seek_forward total fps log_interval current ls).1 ∧
     (handle_seek_forward total fps log_interval current ls).1 ≤ total - 1 ∧
     (total - 1 ≤ current + fps * 5 →
       (handle_seek_forward total fps log_interval current ls).1 = total - 1)) ∧
    (handle_seek_backward fps log_interval current ls).2.monitor = ls.monitor ∧
    (handle_seek_forward total fps log_interval current ls).2.monitor =
      ls.monitor := by
  refine ⟨⟨?_, ?_, ?_⟩, ⟨?_, ?_, ?_⟩, rfl, rfl⟩ <;>
    simp only [handle_seek_backward, handle_seek_forward,
      seek_backward_target, seek_forward_target] <;> omega

/-- C8 witness: the seek bounds instantiated on a 100-frame source at 30 fps
from frame 0. -/
theorem seek_clamps_witness :
    (0 ≤ (handle_seek_backward 30 30 0 ⟨0, 30, initialMonitorState⟩).1 ∧
     (handle_seek_backward 30 30 0 ⟨0, 30, initialMonitorState⟩).1 ≤ 100 - 1 ∧
     (handle_seek_backward 30 30 0 ⟨0, 30, initialMonitorState⟩).1 = 0) ∧
    (0 ≤ (handle_seek_forward 100 30 30 0 ⟨0, 30, initialMonitorState⟩).1 ∧
     (handle_seek_forward 100 30 30 0 ⟨0, 30, initialMonitorState⟩).1 ≤ 100 - 1 ∧
     ((100 : ℤ) - 1 ≤ 0 + 30 * 5 →
       (handle_seek_forward 100 30 30 0 ⟨0, 30, initialMonitorState⟩).1 =
         100 - 1)) ∧
    (handle_seek_backward 30 30 0 ⟨0, 30, initialMonitorState⟩).2.monitor =
      (⟨0, 30, initialMonitorState⟩ : VideoLoopState).monitor ∧
    (handle_seek_forward 100 30 30 0 ⟨0, 30, initialMonitorState⟩).2.monitor =
      (⟨0, 30, initialMonitorState⟩ : VideoLoopState).monitor :=
  seek_clamps 100 30 30 0 ⟨0, 30, initialMonitorState⟩ (by norm_num)
    (by norm_num) (by norm_num) (by norm_num)
